import Mathlib

/-!
Shallow embedding of the image-store and layer-lifecycle subsystem of the
`containers/build` repository (files `lib/oci/manifest.go`, `lib/layer.go`,
`util/oci.go`), with theorems about its behaviour.

Filesystem and collaborator effects (os.Remove, os.Stat, blob writing, tar
extraction, locking) are modelled by explicit "world" records of fallible
primitives, and each embedded operation returns the trace of the effectful
calls it performed together with its `Except` result, mirroring Go's
early-return error propagation.
-/

namespace SigmaBuild

/-! ## Data model (from `lib/oci/manifest.go`) -/

/-- `runtime.GOARCH` / `runtime.GOOS` pair used for the index descriptor's
platform field in `save`. -/
structure OCIPlatform where
  architecture : String
  os : String
deriving DecidableEq, Repr

/-- OCI content descriptor: media type, digest (modelled as the raw
`<algo>:<hex>` string, as in go-digest), size, optional annotations
(modelled as an association list; the empty list is Go's nil map) and
optional platform. -/
structure Descriptor where
  mediaType : String
  digest : String
  size : Int
  annots : List (String × String)
  platform : Option OCIPlatform
deriving DecidableEq, Repr

/-- `ociImage.RootFS`: type string plus ordered diff-ID sequence. -/
structure RootFS where
  fsType : String
  diffIDs : List String
deriving DecidableEq, Repr

/-- The part of `ociImage.Image` (the config record) the core manipulates. -/
structure ImageConfig where
  rootfs : RootFS
deriving DecidableEq, Repr

/-- `ociImage.Manifest`: config descriptor plus ordered layer descriptors. -/
structure Manifest where
  config : Descriptor
  layers : List Descriptor
deriving DecidableEq, Repr

/-- The in-memory `Image` struct of `lib/oci/manifest.go`: path, ref name,
config, manifest, and the manifest descriptor (`manDesc`, the pointer). -/
structure Image where
  ociPath : String
  refName : String
  config : ImageConfig
  manifest : Manifest
  manDesc : Descriptor
deriving DecidableEq, Repr

/-- `index.json` content: `{schemaVersion, manifests}`. -/
structure IndexFile where
  schemaVersion : Nat
  manifests : List Descriptor
deriving DecidableEq, Repr

def OCISchemaVersion : Nat := 2

def AnnotationRefNameKey : String := "org.opencontainers.image.ref.name"

def MediaTypeImageManifest : String := "application/vnd.oci.image.manifest.v1+json"

def MediaTypeImageLayerGzip : String := "application/vnd.oci.image.layer.v1.tar+gzip"

/-- `digest.NewDigestFromHex(algo, hex)` produces the string `algo:hex`. -/
def mkDigest (algo hex : String) : String := algo ++ ":" ++ hex

/-- `Digest.Algorithm().String()`: the part of `<algo>:<hex>` before the colon. -/
def digestAlgorithm (d : String) : String :=
  String.mk (d.toList.takeWhile (fun c => c ≠ ':'))

/-- `Digest.Hex()`: the part of `<algo>:<hex>` after the colon. -/
def digestHex (d : String) : String :=
  String.mk ((d.toList.dropWhile (fun c => c ≠ ':')).drop 1)

/-- Character-list test that `pre` is an initial segment of `s`. -/
def listPre : List Char → List Char → Bool
  | [], _ => true
  | _ :: _, [] => false
  | a :: as, b :: bs => a == b && listPre as bs

/-- String test that `pre` is an initial segment of `s`. -/
def strHasPre (pre s : String) : Bool := listPre pre.toList s.toList

/-! ## The `save` protocol (from `Image.save` in `lib/oci/manifest.go`) -/

/-- Result triple of `util.MarshalHashAndWrite`: hash algorithm, hex digest
and byte size of the blob just written. -/
structure BlobResult where
  algo : String
  hex : String
  size : Int
deriving DecidableEq, Repr

/-- Environment of fallible primitives used by `save`: whether `os.Remove`
of a blob (keyed by its digest) succeeds, the results of
`util.MarshalHashAndWrite` on the config and the manifest (`none` = error),
whether `json.Marshal` of the index and `ioutil.WriteFile` of `index.json`
succeed, and the build host's architecture/OS constants. `priorIndex` is
whatever `index.json` held on disk before the call; `save` never reads it. -/
structure SaveWorld where
  removeBlobOk : String → Bool
  writeConfigBlob : ImageConfig → Option BlobResult
  writeManifestBlob : Manifest → Option BlobResult
  marshalIndexOk : Bool
  writeIndexOk : Bool
  hostArch : String
  hostOS : String
  priorIndex : IndexFile

/-- One observable effect performed by `save`. -/
inductive SaveStep where
  | removeBlob (digest : String)
  | writeConfig (r : BlobResult)
  | writeManifest (r : BlobResult)
  | writeIndex (idx : IndexFile)
deriving DecidableEq, Repr

/-- Outcome of `save`: the in-memory image after the (possibly partial)
run, the ordered trace of effects that were performed, the new content of
`index.json` when it was rewritten, and the error result. -/
structure SaveOutcome where
  image : Image
  steps : List SaveStep
  diskIndex : Option IndexFile
  result : Except String Unit
deriving Repr

/-- Index-entry annotations built by `save`: the ref name under
`AnnotationRefNameKey` when `refName` is non-empty, else Go's nil map. -/
def saveAnnots (refName : String) : List (String × String) :=
  if refName ≠ "" then [(AnnotationRefNameKey, refName)] else []

/-- The single-descriptor index `save` writes: schema version 2, the new
manifest descriptor with the host platform. -/
def saveIndex (w : SaveWorld) (i : Image) : IndexFile :=
  { schemaVersion := OCISchemaVersion
    manifests := [{ mediaType := MediaTypeImageManifest
                    digest := i.manDesc.digest
                    size := i.manDesc.size
                    annots := saveAnnots i.refName
                    platform := some { architecture := w.hostArch, os := w.hostOS } }] }

/-- Embedding of `Image.save`: (1) remove the old config blob, (2) write
the new config and update `manifest.config`, (3) remove the old manifest
blob (the pointer's digest), (4) write the new manifest and update
`manDesc`, (5) marshal and write `index.json`; each failing step returns
immediately. -/
def save (w : SaveWorld) (i : Image) : SaveOutcome :=
  let oldConfigDigest := i.manifest.config.digest
  if ¬ w.removeBlobOk oldConfigDigest then
    ⟨i, [], none, .error "removeOldConfig"⟩
  else
    match w.writeConfigBlob i.config with
    | none => ⟨i, [.removeBlob oldConfigDigest], none, .error "writeConfigBlob"⟩
    | some cr =>
      let i2 := { i with manifest := { i.manifest with
                    config := { i.manifest.config with
                                digest := mkDigest cr.algo cr.hex
                                size := cr.size } } }
      let oldManifestDigest := i2.manDesc.digest
      if ¬ w.removeBlobOk oldManifestDigest then
        ⟨i2, [.removeBlob oldConfigDigest, .writeConfig cr], none, .error "removeOldManifest"⟩
      else
        match w.writeManifestBlob i2.manifest with
        | none =>
          ⟨i2, [.removeBlob oldConfigDigest, .writeConfig cr, .removeBlob oldManifestDigest],
            none, .error "writeManifestBlob"⟩
        | some mr =>
          let i3 := { i2 with manDesc := { i2.manDesc with
                        digest := mkDigest mr.algo mr.hex
                        size := mr.size } }
          if ¬ w.marshalIndexOk then
            ⟨i3, [.removeBlob oldConfigDigest, .writeConfig cr, .removeBlob oldManifestDigest,
                  .writeManifest mr], none, .error "marshalIndex"⟩
          else if ¬ w.writeIndexOk then
            ⟨i3, [.removeBlob oldConfigDigest, .writeConfig cr, .removeBlob oldManifestDigest,
                  .writeManifest mr], none, .error "writeIndexFile"⟩
          else
            ⟨i3, [.removeBlob oldConfigDigest, .writeConfig cr, .removeBlob oldManifestDigest,
                  .writeManifest mr, .writeIndex (saveIndex w i3)],
              some (saveIndex w i3), .ok ()⟩

/-- The full five-step effect trace `save` would perform were every step to
succeed, computed from the same world; failing blob writes are padded with
a default result, which only affects entries past the point where the real
run stops. -/
def idealSaveSteps (w : SaveWorld) (i : Image) : List SaveStep :=
  let cr := (w.writeConfigBlob i.config).getD ⟨"", "", 0⟩
  let i2 := { i with manifest := { i.manifest with
                config := { i.manifest.config with
                            digest := mkDigest cr.algo cr.hex
                            size := cr.size } } }
  let mr := (w.writeManifestBlob i2.manifest).getD ⟨"", "", 0⟩
  let i3 := { i2 with manDesc := { i2.manDesc with
                digest := mkDigest mr.algo mr.hex
                size := mr.size } }
  [.removeBlob i.manifest.config.digest, .writeConfig cr,
   .removeBlob i.manDesc.digest, .writeManifest mr, .writeIndex (saveIndex w i3)]

/-- Content of `index.json` after a `save` call: the freshly written index
when step (5) ran, otherwise whatever was there before. -/
def diskIndexAfter (w : SaveWorld) (o : SaveOutcome) : IndexFile :=
  o.diskIndex.getD w.priorIndex

/-! ## Top-layer mutators (from `UpdateTopLayer` / `NewTopLayer`) -/

/-- In-place assignment to the last slot of a Go slice,
`xs[len(xs)-1] = x`; the identity on the empty list (Go never reaches that
case: both callers guard with `len == 0`). -/
def setLast {α : Type} : List α → α → List α
  | [], _ => []
  | [_], x => [x]
  | y :: z :: ys, x => y :: setLast (z :: ys) x

/-- Outcome of `UpdateTopLayer`: post-state image, returned old top-layer
digest, and the propagated `save` trace/result. -/
structure UpdateOutcome where
  image : Image
  oldLayerDigest : String
  steps : List SaveStep
  diskIndex : Option IndexFile
  result : Except String Unit
deriving Repr

/-- Embedding of `Image.UpdateTopLayer`: overwrite the last diff-ID
(creating the rootfs when empty), overwrite the last layer descriptor
(creating the list when empty, in which case the returned old digest stays
the zero digest ""), then `save`. -/
def UpdateTopLayer (w : SaveWorld) (i : Image) (layerDigest diffId : String)
    (size : Int) : UpdateOutcome :=
  let cfg :=
    if i.config.rootfs.diffIDs.length = 0 then
      { i.config with rootfs := { fsType := "layers", diffIDs := [diffId] } }
    else
      { i.config with rootfs := { i.config.rootfs with
          diffIDs := setLast i.config.rootfs.diffIDs diffId } }
  let layerDescriptor : Descriptor :=
    { mediaType := MediaTypeImageLayerGzip, digest := layerDigest, size := size
      annots := [], platform := none }
  let old_new :=
    if i.manifest.layers.length = 0 then ("", [layerDescriptor])
    else (((i.manifest.layers.getLast?).map Descriptor.digest).getD "",
          setLast i.manifest.layers layerDescriptor)
  let i' := { i with config := cfg, manifest := { i.manifest with layers := old_new.2 } }
  let o := save w i'
  ⟨o.image, old_new.1, o.steps, o.diskIndex, o.result⟩

/-- Embedding of `Image.NewTopLayer`: append the diff-ID (creating the
rootfs when empty), append the layer descriptor (creating the list when
empty), then `save`. -/
def NewTopLayer (w : SaveWorld) (i : Image) (layerDigest diffId : String)
    (size : Int) : SaveOutcome :=
  let cfg :=
    if i.config.rootfs.diffIDs.length = 0 then
      { i.config with rootfs := { fsType := "layers", diffIDs := [diffId] } }
    else
      { i.config with rootfs := { i.config.rootfs with
          diffIDs := i.config.rootfs.diffIDs ++ [diffId] } }
  let layerDescriptor : Descriptor :=
    { mediaType := MediaTypeImageLayerGzip, digest := layerDigest, size := size
      annots := [], platform := none }
  let layers :=
    if i.manifest.layers.length = 0 then [layerDescriptor]
    else i.manifest.layers ++ [layerDescriptor]
  save w { i with config := cfg, manifest := { i.manifest with layers := layers } }

/-! ## `LoadImage` (from `lib/oci/manifest.go`) -/

/-- Environment for `LoadImage`: the parsed content of `index.json`
(`none` collapses open/read/parse failure), and the parsed content of the
blob at `blobs/<algo>/<hex>` for a given digest, as a manifest or a config
(`none` = missing blob or malformed JSON). -/
structure LoadWorld where
  indexFile : Option IndexFile
  manifestBlob : String → Option Manifest
  configBlob : String → Option ImageConfig

/-- One observable read performed by `LoadImage`. -/
inductive LoadStep where
  | readIndex
  | readManifestBlob (digest : String)
  | readConfigBlob (digest : String)
deriving DecidableEq, Repr

/-- The ref-name the loader extracts from a descriptor: the
`AnnotationRefNameKey` entry when present and non-empty, else "". -/
def refNameOf (d : Descriptor) : String :=
  ((d.annots.lookup AnnotationRefNameKey).getD "")

/-- Embedding of `LoadImage`: read `index.json`, pick the first
manifest-typed entry (the zero descriptor, with digest "", when none
matches), fail when the chosen digest is empty, then read and parse the
manifest blob and then the config blob. -/
def LoadImage (w : LoadWorld) (ociPath : String) :
    List LoadStep × Except String Image :=
  match w.indexFile with
  | none => ([], .error "openIndex")
  | some idx =>
    let zeroDesc : Descriptor :=
      { mediaType := "", digest := "", size := 0, annots := [], platform := none }
    let manDesc :=
      (idx.manifests.find? (fun d => d.mediaType == MediaTypeImageManifest)).getD zeroDesc
    let refName := refNameOf manDesc
    if manDesc.digest = "" then
      ([.readIndex], .error "no manifests found in image")
    else
      match w.manifestBlob manDesc.digest with
      | none => ([.readIndex, .readManifestBlob manDesc.digest], .error "readManifest")
      | some man =>
        match w.configBlob man.config.digest with
        | none =>
          ([.readIndex, .readManifestBlob manDesc.digest, .readConfigBlob man.config.digest],
            .error "readConfig")
        | some cfg =>
          ([.readIndex, .readManifestBlob manDesc.digest, .readConfigBlob man.config.digest],
            .ok { ociPath := ociPath, refName := refName, config := cfg,
                  manifest := man, manDesc := manDesc })

/-! ## Layer extraction (from `util/oci.go`, `OCIExtractLayers`) -/

/-- A layer digest as the extraction loop consumes it: algorithm and hex
parts (the loop immediately splits each `digest.Digest`). -/
structure LayerDigest where
  algo : String
  hex : String
deriving DecidableEq, Repr

/-- Environment for `OCIExtractLayers`: whether `os.Stat` on a destination
path finds it, and whether `os.MkdirAll` / `util.ExtractImage` succeed on a
given path. -/
structure ExtractWorld where
  destExists : String → Bool
  mkdirOk : String → Bool
  extractOk : String → Bool

/-- One observable effect of the extraction loop. -/
inductive ExtractStep where
  | statDest (p : String)
  | mkdir (p : String)
  | extract (fromPath toPath : String)
deriving DecidableEq, Repr

/-- The loop body of `OCIExtractLayers`, threading the set of destination
directories created earlier in this same call (so a repeated digest would
stat as existing). A destination that already exists hits the `break`
statement: the whole loop ends and the function returns nil. -/
def extractLoop (w : ExtractWorld) (imageLoc blobsDest : String) :
    List LayerDigest → List String → List ExtractStep × Except String Unit
  | [], _ => ([], .ok ())
  | layerID :: rest, created =>
    let fromPath := imageLoc ++ "/blobs/" ++ layerID.algo ++ "/" ++ layerID.hex
    let toPath := blobsDest ++ "/" ++ layerID.algo ++ "/" ++ layerID.hex
    if w.destExists toPath || created.contains toPath then
      ([.statDest toPath], .ok ())
    else if ¬ w.mkdirOk toPath then
      ([.statDest toPath, .mkdir toPath], .error "mkdir")
    else if ¬ w.extractOk toPath then
      ([.statDest toPath, .mkdir toPath, .extract fromPath toPath], .error "extract")
    else
      let next := extractLoop w imageLoc blobsDest rest (toPath :: created)
      ([.statDest toPath, .mkdir toPath, .extract fromPath toPath] ++ next.1, next.2)

/-- Embedding of `OCIExtractLayers`. -/
def OCIExtractLayers (w : ExtractWorld) (layerIDs : List LayerDigest)
    (imageLoc blobsDest : String) : List ExtractStep × Except String Unit :=
  extractLoop w imageLoc blobsDest layerIDs []

/-! ## Scratch-area setup (from `util/oci.go`, `OCINewExpandedLayer`) -/

/-- Filesystem fragment as a set of existing paths. -/
structure FS where
  paths : List String
deriving DecidableEq, Repr

/-- `os.Stat(p)` succeeds iff `p` is an existing path. -/
def pathExists (fs : FS) (p : String) : Bool := fs.paths.contains p

/-- `os.RemoveAll(p)`: drop `p` and everything below it. -/
def removeAllFS (fs : FS) (p : String) : FS :=
  ⟨fs.paths.filter (fun q => !(q == p || strHasPre (p ++ "/") q))⟩

/-- `os.MkdirAll(p)`: a no-op when `p` exists, else records it. -/
def mkdirAllFS (fs : FS) (p : String) : FS :=
  if pathExists fs p then fs else ⟨p :: fs.paths⟩

/-- True when nothing lies strictly below `p` in `fs`. -/
def dirEmpty (fs : FS) (p : String) : Bool :=
  fs.paths.all (fun q => !(strHasPre (p ++ "/") q))

/-- Embedding of `OCINewExpandedLayer`: stat
`<ociExpandedBlobsPath>/sha256/new-layer`; when the stat error is
IsNotExist, `os.RemoveAll` the path (the source's condition, kept as
written); then `os.MkdirAll` it and return the path. -/
def OCINewExpandedLayer (mkdirOk : Bool) (fs : FS)
    (ociExpandedBlobsPath : String) : FS × Except String String :=
  let targetPath := ociExpandedBlobsPath ++ "/sha256/new-layer"
  let fs1 := if ¬ pathExists fs targetPath then removeAllFS fs targetPath else fs
  if ¬ mkdirOk then (fs1, .error "mkdir")
  else (mkdirAllFS fs1 targetPath, .ok targetPath)

/-! ## Layer lifecycle (from `lib/layer.go`) -/

inductive BuildMode where
  | appc
  | oci
deriving DecidableEq, Repr

/-- Result of `os.Stat` on the dirty-marker path: the file exists, the
error satisfies `os.IsNotExist`, or some other error occurred. -/
inductive StatRes where
  | found
  | notExist
  | otherError
deriving DecidableEq, Repr

/-- The slice of the `ACBuild` session state `RehashTopLayer`/`NewLayer`
read: build mode, the expanded-blobs path and the OCI image manipulator. -/
structure ACBuild where
  mode : BuildMode
  ociExpandedBlobsPath : String
  image : Image
deriving Repr

/-- Modelled from the spec: `GetTopLayerDigest` is called on the
`oci.Image` by `RehashTopLayer` but its definition is not among the source
files; per the spec, the top layer is `manifest.layers[last]`, so it
returns the digest of the last layer descriptor, or the empty digest when
no layer has been committed yet. -/
def GetTopLayerDigest (i : Image) : String :=
  ((i.manifest.layers.getLast?).map Descriptor.digest).getD ""

/-- Environment for `RehashTopLayer`: `os.Stat` on marker paths, the
result of `expandTopOCILayer` (the expanded working-tree path or an
error), the result of `rehashAndStoreOCIBlob` on a given layer path and
isNewLayer flag, and whether `os.Remove` of a path succeeds. -/
structure RehashWorld where
  statFile : String → StatRes
  expandTopOCILayer : Except String String
  rehashAndStoreOCIBlob : String → Bool → Except String Unit
  removeFileOk : String → Bool

/-- One collaborator invocation made by `RehashTopLayer` (recorded whether
or not the call succeeded). -/
inductive RehashStep where
  | statMarker (p : String)
  | expand
  | store (layer : String) (isNewLayer : Bool)
  | removeMarker (p : String)
deriving DecidableEq, Repr

/-- The dirty-marker path for a non-empty top-layer digest:
`<expandedBlobsPath>/<algo>/<hex>.dirty`. -/
def markerPathOf (expandedBlobsPath topLayerID : String) : String :=
  expandedBlobsPath ++ "/" ++ digestAlgorithm topLayerID ++ "/" ++
    digestHex topLayerID ++ ".dirty"

/-- Embedding of `ACBuild.RehashTopLayer`: fail on a non-OCI mode; when
the top-layer digest is non-empty, stat the marker and return nil on
IsNotExist; otherwise (marker present, stat error of another kind, or
empty top-layer digest with `markerPath` left "") expand the top layer,
rehash-and-store it, and remove the marker, propagating each error ("could
not remove dirty marker: ..." for the removal). -/
def RehashTopLayer (w : RehashWorld) (a : ACBuild) :
    List RehashStep × Except String Unit :=
  if a.mode ≠ BuildMode.oci then
    ([], .error "only OCIs need to rehash the top layer")
  else
    let topLayerID := GetTopLayerDigest a.image
    let markerPath :=
      if topLayerID ≠ "" then markerPathOf a.ociExpandedBlobsPath topLayerID else ""
    let pre : List RehashStep :=
      if topLayerID ≠ "" then [.statMarker markerPath] else []
    if topLayerID ≠ "" ∧ w.statFile markerPath = .notExist then
      (pre, .ok ())
    else
      match w.expandTopOCILayer with
      | .error e => (pre ++ [.expand], .error e)
      | .ok currentLayer =>
        match w.rehashAndStoreOCIBlob currentLayer false with
        | .error e => (pre ++ [.expand, .store currentLayer false], .error e)
        | .ok _ =>
          if w.removeFileOk markerPath then
            (pre ++ [.expand, .store currentLayer false, .removeMarker markerPath], .ok ())
          else
            (pre ++ [.expand, .store currentLayer false, .removeMarker markerPath],
              .error "could not remove dirty marker")

/-- Environment for `NewLayer`: the lock/unlock results (`none` = success)
plus everything `RehashTopLayer` and the scratch-area setup need. -/
structure NewLayerWorld where
  lockResult : Option String
  unlockResult : Option String
  rw : RehashWorld
  fs : FS
  mkdirOk : Bool

/-- One observable action of `NewLayer`. -/
inductive NLStep where
  | lock
  | unlock
  | rehashTop (steps : List RehashStep)
  | newExpanded (p : String)
  | storeNew (layer : String)
deriving DecidableEq, Repr

/-- The body of `NewLayer` between lock and deferred unlock: mode check,
best-effort `RehashTopLayer` (result discarded), scratch-area setup, then
`rehashAndStoreOCIBlob(newLayer, true)`. -/
def newLayerBody (w : NewLayerWorld) (a : ACBuild) :
    List NLStep × Except String Unit :=
  if a.mode ≠ BuildMode.oci then
    ([], .error "adding layers is currently only supported in OCI builds")
  else
    let rh := RehashTopLayer w.rw a
    let setup := OCINewExpandedLayer w.mkdirOk w.fs a.ociExpandedBlobsPath
    match setup.2 with
    | .error e => ([.rehashTop rh.1, .newExpanded ""], .error e)
    | .ok newLayerPath =>
      match w.rw.rehashAndStoreOCIBlob newLayerPath true with
      | .error e =>
        ([.rehashTop rh.1, .newExpanded newLayerPath, .storeNew newLayerPath], .error e)
      | .ok _ =>
        ([.rehashTop rh.1, .newExpanded newLayerPath, .storeNew newLayerPath], .ok ())

/-- Embedding of `ACBuild.NewLayer`: `a.lock()` first (returning its error
with nothing else run when it fails), then the body, then the deferred
`a.unlock()`; per the defer, the body's error takes precedence and the
unlock error is surfaced only when the body succeeded. -/
def NewLayer (w : NewLayerWorld) (a : ACBuild) :
    List NLStep × Except String Unit :=
  match w.lockResult with
  | some e => ([], .error e)
  | none =>
    let body := newLayerBody w a
    let steps := [NLStep.lock] ++ body.1 ++ [NLStep.unlock]
    match body.2 with
    | .error e => (steps, .error e)
    | .ok _ =>
      match w.unlockResult with
      | some e => (steps, .error e)
      | none => (steps, .ok ())

/-! ## Concrete instances used by counterexamples and witnesses -/

/-- A `SaveWorld` in which every primitive succeeds; the prior on-disk
index holds two manifest entries. -/
def wOK : SaveWorld :=
  { removeBlobOk := fun _ => true
    writeConfigBlob := fun _ => some ⟨"sha256", "newcfg", 7⟩
    writeManifestBlob := fun _ => some ⟨"sha256", "newman", 9⟩
    marshalIndexOk := true
    writeIndexOk := true
    hostArch := "amd64"
    hostOS := "linux"
    priorIndex := ⟨2, [⟨MediaTypeImageManifest, "sha256:oldman1", 5, [], none⟩,
                       ⟨MediaTypeImageManifest, "sha256:oldman2", 6, [], none⟩]⟩ }

def MediaTypeImageConfig : String := "application/vnd.oci.image.config.v1+json"

def layerDescA : Descriptor := ⟨MediaTypeImageLayerGzip, "sha256:aaa", 100, [], none⟩

/-- An image with one committed layer and matching diff-ID count. -/
def imgOne : Image :=
  { ociPath := "/img"
    refName := "latest"
    config := ⟨⟨"layers", ["sha256:diffa"]⟩⟩
    manifest := ⟨⟨MediaTypeImageConfig, "sha256:cfg", 3, [], none⟩, [layerDescA]⟩
    manDesc := ⟨MediaTypeImageManifest, "sha256:man", 5, [], none⟩ }

/-- An image with no layers and a zero rootfs, as freshly initialised. -/
def imgEmpty : Image :=
  { ociPath := "/img"
    refName := "latest"
    config := ⟨⟨"", []⟩⟩
    manifest := ⟨⟨MediaTypeImageConfig, "sha256:cfg", 3, [], none⟩, []⟩
    manDesc := ⟨MediaTypeImageManifest, "sha256:man", 5, [], none⟩ }

/-- A load environment whose `index.json` parses to an empty manifest list. -/
def lwEmptyIndex : LoadWorld :=
  { indexFile := some ⟨2, []⟩
    manifestBlob := fun _ => none
    configBlob := fun _ => none }

def manGood : Manifest := ⟨⟨MediaTypeImageConfig, "sha256:cfg", 3, [], none⟩, [layerDescA]⟩

/-- A load environment with one well-formed manifest entry and both blobs
present and parseable. -/
def lwGood : LoadWorld :=
  { indexFile := some ⟨2, [⟨MediaTypeImageManifest, "sha256:man", 5,
                            [(AnnotationRefNameKey, "latest")], none⟩]⟩
    manifestBlob := fun d => if d = "sha256:man" then some manGood else none
    configBlob := fun d => if d = "sha256:cfg" then some ⟨⟨"layers", ["sha256:diffa"]⟩⟩ else none }

/-- A rehash environment in which no dirty marker exists anywhere. -/
def wClean : RehashWorld :=
  { statFile := fun _ => .notExist
    expandTopOCILayer := .ok "/exp/sha256/aaa"
    rehashAndStoreOCIBlob := fun _ _ => .ok ()
    removeFileOk := fun _ => true }

/-- A rehash environment in which expand and store succeed and removing
any non-empty path succeeds, while removing the empty path fails (as
`os.Remove("")` always does). -/
def wNoTop : RehashWorld :=
  { statFile := fun _ => .found
    expandTopOCILayer := .ok "/exp/sha256/new-layer"
    rehashAndStoreOCIBlob := fun _ _ => .ok ()
    removeFileOk := fun p => decide (p ≠ "") }

def aOne : ACBuild := ⟨BuildMode.oci, "/exp", imgOne⟩

def aEmpty : ACBuild := ⟨BuildMode.oci, "/exp", imgEmpty⟩

/-- A `NewLayer` environment whose lock acquisition fails. -/
def nlLockFail : NewLayerWorld :=
  { lockResult := some "lock contention"
    unlockResult := none
    rw := wClean
    fs := ⟨[]⟩
    mkdirOk := true }

/-- A `NewLayer` environment in which everything succeeds. -/
def nlOK : NewLayerWorld :=
  { lockResult := none
    unlockResult := none
    rw := wClean
    fs := ⟨[]⟩
    mkdirOk := true }

/-- An extraction environment in which the first layer's destination
directory already exists and the second layer's does not. -/
def ewCached : ExtractWorld :=
  { destExists := fun p => p == "/dest/sha256/aaa"
    mkdirOk := fun _ => true
    extractOk := fun _ => true }

/-- A filesystem in which the scratch directory already exists and holds a
stale entry from an earlier build. -/
def fsStale : FS := ⟨["/exp/sha256/new-layer", "/exp/sha256/new-layer/stale"]⟩

/-! ## Helper lemmas -/

theorem setLast_length {α : Type} : ∀ (xs : List α) (x : α), (setLast xs x).length = xs.length
  | [], _ => rfl
  | [_], _ => rfl
  | y :: z :: ys, x => by
    simp only [setLast, List.length_cons]
    rw [setLast_length (z :: ys) x]
    simp

theorem save_image_layers (w : SaveWorld) (i : Image) :
    (save w i).image.manifest.layers = i.manifest.layers := by
  unfold save
  by_cases h1 : w.removeBlobOk i.manifest.config.digest
  · cases h2 : w.writeConfigBlob i.config with
    | none => simp [h1, h2]
    | some cr =>
      by_cases h3 : w.removeBlobOk i.manDesc.digest
      · cases h4 : w.writeManifestBlob { i.manifest with
            config := { i.manifest.config with
                        digest := mkDigest cr.algo cr.hex, size := cr.size } } with
        | none => simp [h1, h2, h3, h4]
        | some mr =>
          by_cases h5 : w.marshalIndexOk
          · by_cases h6 : w.writeIndexOk
            · simp [h1, h2, h3, h4, h5, h6]
            · simp [h1, h2, h3, h4, h5, h6]
          · simp [h1, h2, h3, h4, h5]
      · simp [h1, h2, h3]
  · simp [h1]

theorem save_image_config (w : SaveWorld) (i : Image) :
    (save w i).image.config = i.config := by
  unfold save
  by_cases h1 : w.removeBlobOk i.manifest.config.digest
  · cases h2 : w.writeConfigBlob i.config with
    | none => simp [h1, h2]
    | some cr =>
      by_cases h3 : w.removeBlobOk i.manDesc.digest
      · cases h4 : w.writeManifestBlob { i.manifest with
            config := { i.manifest.config with
                        digest := mkDigest cr.algo cr.hex, size := cr.size } } with
        | none => simp [h1, h2, h3, h4]
        | some mr =>
          by_cases h5 : w.marshalIndexOk
          · by_cases h6 : w.writeIndexOk
            · simp [h1, h2, h3, h4, h5, h6]
            · simp [h1, h2, h3, h4, h5, h6]
          · simp [h1, h2, h3, h4, h5]
      · simp [h1, h2, h3]
  · simp [h1]

/-! ## Claim theorems -/

/-- C2, counterexample: the claim "for every call to `UpdateTopLayer` the
length of the manifest's layer sequence is the same before and after" fails
on an image whose layer sequence starts empty: the call creates a
singleton sequence, growing the length from 0 to 1. -/
theorem updateTopLayer_length_not_preserved_on_empty :
    ¬ ((UpdateTopLayer wOK imgEmpty "sha256:bbb" "sha256:ccc" 1024).image.manifest.layers.length
        = imgEmpty.manifest.layers.length) := by
  decide

/-- C2, amended: `UpdateTopLayer` leaves the manifest's layer count
unchanged whenever the manifest already has at least one layer, and grows
it from 0 to 1 when the sequence starts empty; `NewTopLayer` increases the
count by exactly one on every call, including when the sequences start
empty. -/
theorem topLayer_length_behaviour (w : SaveWorld) (i : Image)
    (ld di : String) (s : Int) :
    (i.manifest.layers.length ≠ 0 →
      (UpdateTopLayer w i ld di s).image.manifest.layers.length
        = i.manifest.layers.length) ∧
    (i.manifest.layers.length = 0 →
      (UpdateTopLayer w i ld di s).image.manifest.layers.length = 1) ∧
    (NewTopLayer w i ld di s).image.manifest.layers.length
        = i.manifest.layers.length + 1 := by
  refine ⟨?_, ?_, ?_⟩
  · intro h
    simp only [UpdateTopLayer, save_image_layers]
    simp [h, setLast_length]
  · intro h
    simp only [UpdateTopLayer, save_image_layers]
    simp [h]
  · by_cases h : i.manifest.layers.length = 0
    · simp only [NewTopLayer, save_image_layers]
      simp [h, List.length_eq_zero.mp h]
    · simp only [NewTopLayer, save_image_layers]
      simp [h]

/-- C2, witness for the amended claim at concrete inputs. -/
theorem topLayer_length_behaviour_witness :
    (UpdateTopLayer wOK imgOne "sha256:b" "sha256:c" 7).image.manifest.layers.length
      = imgOne.manifest.layers.length ∧
    (UpdateTopLayer wOK imgEmpty "sha256:b" "sha256:c" 7).image.manifest.layers.length = 1 :=
  ⟨(topLayer_length_behaviour wOK imgOne "sha256:b" "sha256:c" 7).1 (by decide),
   (topLayer_length_behaviour wOK imgEmpty "sha256:b" "sha256:c" 7).2.1 (by decide)⟩

/-- C3: invariant I1 is preserved: when the diff-ID count equals the layer
count before the call, it still does after a successful `UpdateTopLayer`
or `NewTopLayer` (both of which run `save`). -/
theorem invariantI1_preserved (w : SaveWorld) (i : Image)
    (ld di : String) (s : Int)
    (h : i.config.rootfs.diffIDs.length = i.manifest.layers.length) :
    ((UpdateTopLayer w i ld di s).result = .ok () →
      (UpdateTopLayer w i ld di s).image.config.rootfs.diffIDs.length
        = (UpdateTopLayer w i ld di s).image.manifest.layers.length) ∧
    ((NewTopLayer w i ld di s).result = .ok () →
      (NewTopLayer w i ld di s).image.config.rootfs.diffIDs.length
        = (NewTopLayer w i ld di s).image.manifest.layers.length) := by
  constructor
  · intro _
    simp only [UpdateTopLayer, save_image_layers, save_image_config]
    by_cases h0 : i.config.rootfs.diffIDs.length = 0
    · simp [h0, h ▸ h0]
    · simp [h0, h ▸ h0, setLast_length, h]
  · intro _
    simp only [NewTopLayer, save_image_layers, save_image_config]
    by_cases h0 : i.config.rootfs.diffIDs.length = 0
    · simp [h0, h ▸ h0]
    · simp [h0, h ▸ h0, h]

/-- C3, witness: I1 holds after a successful `UpdateTopLayer` on a
one-layer image with matching counts. -/
theorem invariantI1_preserved_witness :
    (UpdateTopLayer wOK imgOne "sha256:b" "sha256:c" 7).image.config.rootfs.diffIDs.length
      = (UpdateTopLayer wOK imgOne "sha256:b" "sha256:c" 7).image.manifest.layers.length :=
  (invariantI1_preserved wOK imgOne "sha256:b" "sha256:c" 7 (by decide)).1 rfl

/-- C4: `save` executes the ordered five-step blob-replacement protocol
fail-fast. `idealSaveSteps` spells the five steps in order — remove the
blob referenced by `manifest.config.digest`, write the config blob, remove
the blob referenced by the pointer, write the manifest blob, write the
index — and the trace actually performed is always an initial prefix of
it; it is the full five-step trace exactly when `save` succeeds; any error
returns with fewer than five steps performed (no later step runs); and on
success the config descriptor and the pointer descriptor carry the digests
of the freshly written blobs and `index.json` was rewritten to reference
the new pointer descriptor. -/
theorem save_fail_fast_protocol (w : SaveWorld) (i : Image) :
    (idealSaveSteps w i).length = 5 ∧
    (save w i).steps = (idealSaveSteps w i).take (save w i).steps.length ∧
    ((save w i).result = .ok () ↔ (save w i).steps = idealSaveSteps w i) ∧
    (∀ e, (save w i).result = .error e → (save w i).steps.length < 5) ∧
    ((save w i).result = .ok () →
      (w.writeConfigBlob i.config).map (fun r => mkDigest r.algo r.hex)
          = some (save w i).image.manifest.config.digest ∧
      (w.writeManifestBlob (save w i).image.manifest).map (fun r => mkDigest r.algo r.hex)
          = some (save w i).image.manDesc.digest ∧
      (save w i).diskIndex = some (saveIndex w (save w i).image)) := by
  unfold save idealSaveSteps
  by_cases h1 : w.removeBlobOk i.manifest.config.digest
  · cases h2 : w.writeConfigBlob i.config with
    | none => simp [h1, h2]
    | some cr =>
      by_cases h3 : w.removeBlobOk i.manDesc.digest
      · cases h4 : w.writeManifestBlob { i.manifest with
            config := { i.manifest.config with
                        digest := mkDigest cr.algo cr.hex, size := cr.size } } with
        | none => simp [h1, h2, h3, h4]
        | some mr =>
          by_cases h5 : w.marshalIndexOk
          · by_cases h6 : w.writeIndexOk
            · simp [h1, h2, h3, h4, h5, h6]
            · simp [h1, h2, h3, h4, h5, h6]
          · simp [h1, h2, h3, h4, h5]
      · simp [h1, h2, h3]
  · simp [h1]

/-- C4, witness: with every primitive succeeding, `save` performs exactly
the ideal five-step trace. -/
theorem save_fail_fast_protocol_witness :
    (save wOK imgOne).steps = idealSaveSteps wOK imgOne :=
  (save_fail_fast_protocol wOK imgOne).2.2.1.mp rfl

/-- C9: after every successful `save`, the on-disk `index.json` is exactly
the freshly built single-descriptor index — schema version 2, one
manifest-typed entry carrying the new pointer digest and size, the host
architecture/OS as its platform, and the ref-name annotations exactly when
`refName` is non-empty — regardless of whatever entries the prior on-disk
index held. -/
theorem save_index_single_entry (w : SaveWorld) (i : Image)
    (h : (save w i).result = .ok ()) :
    diskIndexAfter w (save w i) = saveIndex w (save w i).image ∧
    (saveIndex w (save w i).image).schemaVersion = 2 ∧
    (saveIndex w (save w i).image).manifests =
      [{ mediaType := MediaTypeImageManifest
         digest := (save w i).image.manDesc.digest
         size := (save w i).image.manDesc.size
         annots := saveAnnots i.refName
         platform := some { architecture := w.hostArch, os := w.hostOS } }] ∧
    (i.refName ≠ "" → saveAnnots i.refName = [(AnnotationRefNameKey, i.refName)]) ∧
    (i.refName = "" → saveAnnots i.refName = []) := by
  refine ⟨?_, rfl, ?_, ?_, ?_⟩
  · revert h
    unfold save diskIndexAfter
    by_cases h1 : w.removeBlobOk i.manifest.config.digest
    · cases h2 : w.writeConfigBlob i.config with
      | none => simp [h1, h2]
      | some cr =>
        by_cases h3 : w.removeBlobOk i.manDesc.digest
        · cases h4 : w.writeManifestBlob { i.manifest with
              config := { i.manifest.config with
                          digest := mkDigest cr.algo cr.hex, size := cr.size } } with
          | none => simp [h1, h2, h3, h4]
          | some mr =>
            by_cases h5 : w.marshalIndexOk
            · by_cases h6 : w.writeIndexOk
              · simp [h1, h2, h3, h4, h5, h6]
              · simp [h1, h2, h3, h4, h5, h6]
            · simp [h1, h2, h3, h4, h5]
        · simp [h1, h2, h3]
    · simp [h1]
  · have hr : (save w i).image.refName = i.refName := by
      unfold save
      by_cases h1 : w.removeBlobOk i.manifest.config.digest
      · cases h2 : w.writeConfigBlob i.config with
        | none => simp [h1, h2]
        | some cr =>
          by_cases h3 : w.removeBlobOk i.manDesc.digest
          · cases h4 : w.writeManifestBlob { i.manifest with
                config := { i.manifest.config with
                            digest := mkDigest cr.algo cr.hex, size := cr.size } } with
            | none => simp [h1, h2, h3, h4]
            | some mr =>
              by_cases h5 : w.marshalIndexOk
              · by_cases h6 : w.writeIndexOk
                · simp [h1, h2, h3, h4, h5, h6]
                · simp [h1, h2, h3, h4, h5, h6]
              · simp [h1, h2, h3, h4, h5]
          · simp [h1, h2, h3]
      · simp [h1]
    simp [saveIndex, hr]
  · intro hne
    simp [saveAnnots, hne]
  · intro he
    simp [saveAnnots, he]

/-- C9, witness: a successful save on a concrete image whose prior
`index.json` held two manifest entries leaves exactly one. -/
theorem save_index_single_entry_witness :
    diskIndexAfter wOK (save wOK imgOne) = saveIndex wOK (save wOK imgOne).image ∧
    (saveIndex wOK (save wOK imgOne).image).manifests.length = 1 ∧
    wOK.priorIndex.manifests.length = 2 := by
  have h := save_index_single_entry wOK imgOne rfl
  exact ⟨h.1, by rw [h.2.2.1]; rfl, rfl⟩

/-- C5: `LoadImage` resolves the pointer as the first manifest-typed entry
of `index.json` and then reads the manifest blob named by that entry's
digest followed by the config blob named by `manifest.config.digest`; when
`index.json` has no manifest-typed entry (in particular when its manifest
list is empty) it fails with the NotFound-style error "no manifests found
in image" instead of returning an image. -/
theorem loadImage_pointer_resolution (w : LoadWorld) (p : String) :
    (∀ idx, w.indexFile = some idx →
      idx.manifests.find? (fun d => d.mediaType == MediaTypeImageManifest) = none →
      (LoadImage w p).2 = .error "no manifests found in image") ∧
    (∀ i, (LoadImage w p).2 = .ok i →
      ∃ idx, w.indexFile = some idx ∧
        idx.manifests.find? (fun d => d.mediaType == MediaTypeImageManifest) = some i.manDesc ∧
        w.manifestBlob i.manDesc.digest = some i.manifest ∧
        w.configBlob i.manifest.config.digest = some i.config ∧
        (LoadImage w p).1 = [.readIndex, .readManifestBlob i.manDesc.digest,
                            .readConfigBlob i.manifest.config.digest]) := by
  constructor
  · intro idx hidx hfind
    simp [LoadImage, hidx, hfind]
  · intro i hok
    cases hw : w.indexFile with
    | none => simp [LoadImage, hw] at hok
    | some idx =>
      refine ⟨idx, rfl, ?_⟩
      cases hfind : idx.manifests.find? (fun d => d.mediaType == MediaTypeImageManifest) with
      | none => simp [LoadImage, hw, hfind] at hok
      | some d =>
        by_cases hd : d.digest = ""
        · simp [LoadImage, hw, hfind, hd] at hok
        · cases hm : w.manifestBlob d.digest with
          | none => simp [LoadImage, hw, hfind, hd, hm] at hok
          | some man =>
            cases hc : w.configBlob man.config.digest with
            | none => simp [LoadImage, hw, hfind, hd, hm, hc] at hok
            | some cfg =>
              simp only [LoadImage, hw, hfind, Option.getD_some, hd, if_false, hm, hc] at hok
              simp only [LoadImage, hw, hfind, Option.getD_some, hd, if_false, hm, hc]
              cases hok
              exact ⟨by simp [hfind], by simp [hm], by simp [hc], by simp⟩

/-- C5, witness: Scenario D, a `LoadImage` on an empty manifest list fails
with the NotFound-style error, plus the success shape on a well-formed
store. -/
theorem loadImage_pointer_resolution_witness :
    (LoadImage lwEmptyIndex "/img").2 = .error "no manifests found in image" :=
  (loadImage_pointer_resolution lwEmptyIndex "/img").1 ⟨2, []⟩ rfl rfl

/-- C6: when the image is in OCI build mode, a previously-committed top
layer exists (non-empty top-layer digest) and the dirty marker file is
absent, `RehashTopLayer` succeeds having performed only the marker stat:
it never invokes `expandTopOCILayer`, never invokes the blob writer
(`rehashAndStoreOCIBlob`, whose success path is what calls
`UpdateTopLayer`), and never removes anything — so, the state being
untouched, an immediately repeated call runs exactly the same way. -/
theorem rehashTopLayer_clean_noop (w : RehashWorld) (a : ACBuild)
    (h1 : a.mode = BuildMode.oci)
    (h2 : GetTopLayerDigest a.image ≠ "")
    (h3 : w.statFile (markerPathOf a.ociExpandedBlobsPath (GetTopLayerDigest a.image))
            = .notExist) :
    RehashTopLayer w a
      = ([.statMarker (markerPathOf a.ociExpandedBlobsPath (GetTopLayerDigest a.image))],
         .ok ()) ∧
    RehashStep.expand ∉ (RehashTopLayer w a).1 ∧
    (∀ l b, RehashStep.store l b ∉ (RehashTopLayer w a).1) ∧
    (∀ q, RehashStep.removeMarker q ∉ (RehashTopLayer w a).1) := by
  have hmain : RehashTopLayer w a
      = ([.statMarker (markerPathOf a.ociExpandedBlobsPath (GetTopLayerDigest a.image))],
         .ok ()) := by
    unfold RehashTopLayer
    simp [h1, h2, h3]
  refine ⟨hmain, ?_, ?_, ?_⟩
  · rw [hmain]; simp
  · intro l b; rw [hmain]; simp
  · intro q; rw [hmain]; simp

/-- C6, witness: a clean one-layer image in a marker-free environment. -/
theorem rehashTopLayer_clean_noop_witness :
    RehashTopLayer wClean aOne = ([.statMarker "/exp/sha256/aaa.dirty"], .ok ()) := by
  have h := (rehashTopLayer_clean_noop wClean aOne rfl (by decide) rfl).1
  rw [show markerPathOf aOne.ociExpandedBlobsPath (GetTopLayerDigest aOne.image)
        = "/exp/sha256/aaa.dirty" by decide] at h
  exact h

/-- C10: when the image is in OCI build mode but has no committed top
layer (empty top-layer digest), `RehashTopLayer` skips the dirty-marker
stat entirely, performs the expand and rehash-and-store work, and then
attempts `os.Remove` on the never-assigned empty marker path; since
removing the empty path fails, the call returns the "could not remove
dirty marker" error even though the rehash-and-store succeeded. -/
theorem rehashTopLayer_empty_top_marker_error (w : RehashWorld) (a : ACBuild)
    (l : String)
    (h1 : a.mode = BuildMode.oci)
    (h2 : GetTopLayerDigest a.image = "")
    (h3 : w.expandTopOCILayer = .ok l)
    (h4 : w.rehashAndStoreOCIBlob l false = .ok ())
    (h5 : w.removeFileOk "" = false) :
    RehashTopLayer w a
      = ([.expand, .store l false, .removeMarker ""],
         .error "could not remove dirty marker") := by
  unfold RehashTopLayer
  simp [h1, h2, h3, h4, h5]

/-- C10, witness: an image with no layers under an environment where
expanding and storing succeed. -/
theorem rehashTopLayer_empty_top_marker_error_witness :
    RehashTopLayer wNoTop aEmpty
      = ([.expand, .store "/exp/sha256/new-layer" false, .removeMarker ""],
         .error "could not remove dirty marker") :=
  rehashTopLayer_empty_top_marker_error wNoTop aEmpty "/exp/sha256/new-layer"
    rfl rfl rfl rfl rfl

/-- C8: `NewLayer` takes the image-directory lock before any other action
and releases it on every control path after acquisition: when the lock
fails nothing else runs and the lock error is returned; when it succeeds
the action trace starts with the lock and ends with the unlock, a failing
body has its own error returned (the unlock result is discarded), and an
unlock failure is surfaced exactly when the body succeeded. -/
theorem newLayer_lock_protocol (w : NewLayerWorld) (a : ACBuild) :
    (∀ e, w.lockResult = some e → NewLayer w a = ([], .error e)) ∧
    (w.lockResult = none →
      (NewLayer w a).1.head? = some .lock ∧
      (NewLayer w a).1.getLast? = some .unlock ∧
      (∀ e, (newLayerBody w a).2 = .error e → (NewLayer w a).2 = .error e) ∧
      ((newLayerBody w a).2 = .ok () → w.unlockResult = none →
        (NewLayer w a).2 = .ok ()) ∧
      (∀ e, (newLayerBody w a).2 = .ok () → w.unlockResult = some e →
        (NewLayer w a).2 = .error e)) := by
  constructor
  · intro e he
    simp [NewLayer, he]
  · intro hl
    have hsteps : (NewLayer w a).1 = [NLStep.lock] ++ (newLayerBody w a).1 ++ [NLStep.unlock] := by
      unfold NewLayer
      cases hb : (newLayerBody w a).2 with
      | error e => simp [hl, hb]
      | ok u =>
        cases hu : w.unlockResult with
        | none => simp [hl, hb, hu]
        | some e => simp [hl, hb, hu]
    refine ⟨?_, ?_, ?_, ?_, ?_⟩
    · rw [hsteps]; rfl
    · rw [hsteps]
      exact List.getLast?_concat _
    · intro e hb
      simp [NewLayer, hl, hb]
    · intro hb hu
      simp [NewLayer, hl, hb, hu]
    · intro e hb hu
      simp [NewLayer, hl, hb, hu]

/-- C8, witness: the lock-failure path returns the lock error with nothing
run, and on the all-success path the trace is lock-first, unlock-last. -/
theorem newLayer_lock_protocol_witness :
    NewLayer nlLockFail aOne = ([], .error "lock contention") ∧
    (NewLayer nlOK aOne).1.head? = some .lock ∧
    (NewLayer nlOK aOne).1.getLast? = some .unlock :=
  ⟨(newLayer_lock_protocol nlLockFail aOne).1 "lock contention" rfl,
   ((newLayer_lock_protocol nlOK aOne).2 rfl).1,
   ((newLayer_lock_protocol nlOK aOne).2 rfl).2.1⟩

/-- C1, failing-input evaluation: with the first digest's destination
already extracted and the second's absent, `OCIExtractLayers` hits the
`break`: it returns success after the single stat, never creating or
extracting the second layer's destination — against the claim that an
already-extracted digest is merely skipped and processing continues. -/
theorem extractLayers_break_stops_processing :
    OCIExtractLayers ewCached [⟨"sha256", "aaa"⟩, ⟨"sha256", "bbb"⟩] "/img" "/dest"
      = ([.statDest "/dest/sha256/aaa"], .ok ()) ∧
    ExtractStep.mkdir "/dest/sha256/bbb"
      ∉ (OCIExtractLayers ewCached [⟨"sha256", "aaa"⟩, ⟨"sha256", "bbb"⟩] "/img" "/dest").1 ∧
    ExtractStep.extract "/img/blobs/sha256/bbb" "/dest/sha256/bbb"
      ∉ (OCIExtractLayers ewCached [⟨"sha256", "aaa"⟩, ⟨"sha256", "bbb"⟩] "/img" "/dest").1 := by
  refine ⟨rfl, by decide, by decide⟩

/-- C7, failing-input evaluation: when the scratch directory
`<expandedBlobsPath>/sha256/new-layer` already exists with stale content,
`OCINewExpandedLayer` succeeds yet leaves the stale entry in place (the
`RemoveAll` is guarded by the inverted IsNotExist condition and the
`MkdirAll` is a no-op), so the scratch directory is not empty — against
the claim that it is empty for every prior state of the path. -/
theorem newExpandedLayer_keeps_stale_content :
    (OCINewExpandedLayer true fsStale "/exp").2 = .ok "/exp/sha256/new-layer" ∧
    pathExists (OCINewExpandedLayer true fsStale "/exp").1 "/exp/sha256/new-layer/stale" = true ∧
    dirEmpty (OCINewExpandedLayer true fsStale "/exp").1 "/exp/sha256/new-layer" = false := by
  refine ⟨rfl, by decide, by decide⟩

end SigmaBuild
